import Mathlib

/- Verification development for the disaster-response-gis repository.

   The Python modules backend/core/spatial_analysis.py,
   backend/core/route_optimizer.py and backend/core/impact_analysis.py are
   shallowly embedded below.  Conventions used throughout:

   * Python floats are idealised as rationals (`ℚ`) where the code only
     moves values around and compares them, and as reals (`ℝ`) where the
     code applies `sqrt` / `exp`.
   * Calls into the external geometry libraries (shapely / geopandas) are
     modelled by oracle parameters.  A fallible library call is an
     `Except GeoErr` value; a Python `try/except` block becomes a `match`
     on that value.
   * `gpd.overlay(gdf1, gdf2, how="intersection")` is modelled by its
     documented contract (`overlayPairs`): one output row per intersecting
     pair of input features, carrying the attributes of both sides, with
     the index of the result reset to the positions 0..k-1 (input indices
     are not preserved by overlay).
   * A Python dict result is modelled as a record with one field per key;
     a field of `Option` type is a key that may be absent (`none`).
   * `round(x, 2)` is modelled by `pyRound2`.  Python rounds ties to even
     while `round` in mathlib rounds ties up; no concrete value in this
     development sits on a tie, so the two agree on every input used here.
-/

namespace DisasterGIS

/-! ## Basic geometry -/

/-- Longitude/latitude pair in degrees (WGS84); floats modelled as rationals. -/
abbrev Coord : Type := ℚ × ℚ

/-- Squared Euclidean distance in degree space, used by find_nearest_node.
    numpy computes `sqrt` before `argmin`; since `sqrt` is strictly monotone,
    comparing squared distances is exact (ties included). -/
def sqDist (p q : Coord) : ℚ :=
  (p.1 - q.1) ^ 2 + (p.2 - q.2) ^ 2

/-- Euclidean distance between two coordinates (shapely `Point.distance`),
    idealised over the reals. -/
noncomputable def euclidDist (p q : Coord) : ℝ :=
  Real.sqrt ((sqDist p q : ℚ) : ℝ)

/-- Edge weight computed in build_road_network:
    `start_point.distance(end_point) * 111000`. -/
noncomputable def edgeWeight (p q : Coord) : ℝ :=
  euclidDist p q * 111000

/-- Python `round(x, 2)` over the reals. -/
noncomputable def pyRound2 (x : ℝ) : ℝ :=
  ((round (x * 100) : ℤ) : ℝ) / 100

/-- Python `round(x, 2)` over the rationals. -/
def pyRound2Q (x : ℚ) : ℚ :=
  ((round (x * 100) : ℤ) : ℚ) / 100

/-- Failure raised by an external geometry-library call. -/
inductive GeoErr : Type where
  | topology : GeoErr
  | keyError : GeoErr
deriving DecidableEq

/-! ## spatial_analysis.py -/

/-- Contract of `gpd.overlay(g1, g2, how="intersection")` for a concrete
    pairwise intersection predicate `inter`: one row per intersecting pair,
    in the row order of the first frame, attributes of both sides kept, and
    the result reindexed 0..k-1. -/
def overlayPairs {A B : Type} (inter : A → B → Bool) (g1 : List A) (g2 : List B) :
    List (A × B) :=
  (g1.map (fun a => (g2.filter (fun b => inter a b)).map (fun b => (a, b)))).flatten

/-- spatial_analysis.spatial_intersection: wraps `gpd.overlay(..., "intersection")`
    (the oracle `ov`); the except-branch returns an empty GeoDataFrame,
    modelled as `[]`.  CRS reprojection is modelled as the identity since all
    layers in this system share EPSG:4326. -/
def spatial_intersection {A B C : Type}
    (ov : List A → List B → Except GeoErr (List C))
    (gdf1 : List A) (gdf2 : List B) : List C :=
  match ov gdf1 gdf2 with
  | .ok r => r
  | .error _ => []

/-- spatial_analysis.spatial_difference: wraps `gpd.overlay(..., "difference")`
    (the oracle `ov`); the except-branch returns `gdf1` itself, not an empty
    frame. -/
def spatial_difference {A B : Type}
    (ov : List A → List B → Except GeoErr (List A))
    (gdf1 : List A) (gdf2 : List B) : List A :=
  match ov gdf1 gdf2 with
  | .ok r => r
  | .error _ => gdf1

/-- spatial_analysis.create_buffer: buffers each geometry through the external
    reproject-buffer-reproject step `buf`; on any failure the input is
    returned unchanged. -/
def create_buffer {A : Type} (buf : A → ℝ → Except GeoErr A)
    (gdf : List A) (distanceMeters : ℝ) : List A :=
  match gdf.mapM (fun g => buf g distanceMeters) with
  | .ok r => r
  | .error _ => gdf

/-- A GeoDataFrame whose rows have geometry (and attributes) of type `A`,
    together with the optional `area_sqkm` column; `none` means the column
    is absent from the frame. -/
structure GeoLayer (A : Type) where
  rows : List A
  areaCol : Option (List ℚ)
deriving DecidableEq

/-- spatial_analysis.calculate_area: writes the `area_sqkm` column into the
    input frame (`gdf["area_sqkm"] = ...` mutates the caller's object, so the
    returned layer is also the post-state of the argument); on failure of the
    projected-area computation (`areaM2`, square meters) the input is
    returned unchanged. -/
def calculate_area {A : Type} (areaM2 : A → Except GeoErr ℚ)
    (gdf : GeoLayer A) : GeoLayer A :=
  match gdf.rows.mapM areaM2 with
  | .ok vals => { gdf with areaCol := some (vals.map (fun v => v / 1000000)) }
  | .error _ => gdf

/-! ## impact_analysis.py -/

/-- impact_analysis.assess_severity, translated clause for clause. -/
def assess_severity (affectedPopulation : ℚ) (affectedAreaSqkm : ℚ) : String :=
  if affectedPopulation > 100000 ∨ affectedAreaSqkm > 1000 then "critical"
  else if affectedPopulation > 10000 ∨ affectedAreaSqkm > 100 then "high"
  else if affectedPopulation > 1000 ∨ affectedAreaSqkm > 10 then "medium"
  else "low"

/-- Administrative-boundary layer: rows carry geometry and the value of the
    `population` attribute; `hasPop` records whether the frame actually has a
    `population` column (`analyze_disaster_impact` checks column presence on
    the overlay result, which inherits the columns of this frame). -/
structure AdminLayer (B : Type) where
  rows : List (B × ℤ)
  hasPop : Bool

/-- Road layer as consumed by impact analysis: geometry plus the value of the
    `length` attribute, with `hasLen` recording column presence. -/
structure RoadsImpactLayer (R : Type) where
  rows : List (R × ℚ)
  hasLen : Bool

/-- Result dict of analyze_disaster_impact. -/
structure ImpactReport where
  affected_area_sqkm : ℚ
  estimated_affected_population : ℤ
  affected_administrative_areas : ℕ
  affected_hospitals : ℕ
  affected_shelters : ℕ
  affected_roads_km : ℚ
  severity_assessment : String
deriving DecidableEq

/-- impact_analysis.analyze_disaster_impact.  Returns the report (`none` for
    the `{}` of the except-branch) together with the post-state of the
    disaster-zone frame, which calculate_area mutates in place.  The only
    statement inside the `try` that can raise after the guarded library calls
    is the read of `disaster_with_area["area_sqkm"]` when that column is
    absent, so the except-branch is inlined at that point. -/
def analyze_disaster_impact {Z B P S R : Type}
    (areaM2 : Z → Except GeoErr ℚ)
    (ovAdmin : List (B × ℤ) → List Z → Except GeoErr (List ((B × ℤ) × Z)))
    (ovHosp : List P → List Z → Except GeoErr (List (P × Z)))
    (ovShel : List S → List Z → Except GeoErr (List (S × Z)))
    (ovRoads : List (R × ℚ) → List Z → Except GeoErr (List ((R × ℚ) × Z)))
    (disasterZone : GeoLayer Z) (adminBoundaries : AdminLayer B)
    (hospitals : List P) (shelters : List S) (roads : RoadsImpactLayer R) :
    Option ImpactReport × GeoLayer Z :=
  let disasterWithArea := calculate_area areaM2 disasterZone
  match disasterWithArea.areaCol with
  | none => (none, disasterWithArea)
  | some areas =>
    let totalAffectedArea := areas.sum
    let affectedAdmin := spatial_intersection ovAdmin adminBoundaries.rows disasterZone.rows
    let affectedPopulation : ℤ :=
      if adminBoundaries.hasPop then (affectedAdmin.map (fun r => r.1.2)).sum else 0
    let affectedHospitals := spatial_intersection ovHosp hospitals disasterZone.rows
    let affectedShelters := spatial_intersection ovShel shelters disasterZone.rows
    let affectedRoads := spatial_intersection ovRoads roads.rows disasterZone.rows
    let affectedRoadsLength : ℚ :=
      if roads.hasLen then (affectedRoads.map (fun r => r.1.2)).sum else 0
    (some
      { affected_area_sqkm := pyRound2Q totalAffectedArea
        estimated_affected_population := affectedPopulation
        affected_administrative_areas := affectedAdmin.length
        affected_hospitals := affectedHospitals.length
        affected_shelters := affectedShelters.length
        affected_roads_km := pyRound2Q (affectedRoadsLength / 1000)
        severity_assessment :=
          assess_severity (affectedPopulation : ℚ) totalAffectedArea },
     disasterWithArea)

/-! ## route_optimizer.py: network building -/

/-- One road feature.  `road_type` and `condition` are carried into edge
    attributes by the source but are never read back by any code under
    verification, so only the fields the claims touch are modelled. -/
structure Road where
  coords : List Coord
  is_blocked : Bool
deriving DecidableEq

/-- Road GeoDataFrame: rows are (pandas index, feature) pairs;
    `hasBlockedCol` records whether the frame has an `is_blocked` column. -/
structure RoadsGdf where
  rows : List (ℕ × Road)
  hasBlockedCol : Bool
deriving DecidableEq

/-- Membership of the undirected edge a-b in an edge list (nx.Graph edges
    are unordered; an edge is stored once under its first insertion
    orientation). -/
def edgeMem (es : List (Coord × Coord)) (a b : Coord) : Bool :=
  es.any (fun e => decide ((e.1 = a ∧ e.2 = b) ∨ (e.1 = b ∧ e.2 = a)))

/-- Model of `networkx.Graph`: a simple undirected graph.  Node and edge
    lists are kept in insertion order (nx dicts preserve insertion order)
    and contain no duplicates by construction.  Edge attributes are not
    stored: the only attribute any verified code reads back is `length`,
    which is always `edgeWeight` of the two endpoints. -/
structure NXGraph where
  nodes : List Coord
  edges : List (Coord × Coord)
deriving DecidableEq

/-- Insert a node if not already present (nx.add_edge adds endpoints). -/
def addNode (ns : List Coord) (c : Coord) : List Coord :=
  if c ∈ ns then ns else ns ++ [c]

/-- Model of `G.add_edge(a, b, ...)`: endpoints become nodes; a duplicate
    (unordered) edge is not added again (nx.Graph is simple — re-adding only
    overwrites attributes). -/
def addEdge (G : NXGraph) (a b : Coord) : NXGraph :=
  { nodes := addNode (addNode G.nodes a) b
    edges := if edgeMem G.edges a b then G.edges else G.edges ++ [(a, b)] }

/-- Consecutive vertex pairs of a polyline (`coords[i], coords[i+1]`). -/
def consecPairs {α : Type} : List α → List (α × α)
  | [] => []
  | [_] => []
  | a :: b :: rest => (a, b) :: consecPairs (b :: rest)

/-- route_optimizer.build_road_network.  The `try` body is total in this
    model (its only failure modes are malformed geometries, outside the
    embedded value space), so the except-branch returning an empty graph is
    not reachable. -/
def build_road_network (roads : List (ℕ × Road)) : NXGraph :=
  roads.foldl
    (fun G r => (consecPairs r.2.coords).foldl (fun G' p => addEdge G' p.1 p.2) G)
    { nodes := [], edges := [] }

/-- Total number of consecutive coordinate pairs over all road polylines
    (the "segment count" of the specification). -/
def totalConsecPairs (roads : List (ℕ × Road)) : ℕ :=
  (roads.map (fun r => (consecPairs r.2.coords).length)).sum

/-- All consecutive pairs of all roads, in processing order. -/
def allPairs (roads : List (ℕ × Road)) : List (Coord × Coord) :=
  (roads.map (fun r => consecPairs r.2.coords)).flatten

/-! ## route_optimizer.py: routing -/

/-- route_optimizer.find_nearest_node: `None` on an empty node set, else the
    first node attaining the minimum Euclidean distance (np.argmin returns
    the first minimising index; squared distances compare identically). -/
def find_nearest_node (G : NXGraph) (point : Coord) : Option Coord :=
  match G.nodes with
  | [] => none
  | n :: ns =>
    some (ns.foldl (fun best m => if sqDist m point < sqDist best point then m else best) n)

/-- Neighbours of a node, in node insertion order. -/
def neighborsOf (G : NXGraph) (c : Coord) : List Coord :=
  G.nodes.filter (fun d => edgeMem G.edges c d)

/-- Simple paths from `cur` to `t` avoiding `visited`, with fuel bounding the
    recursion depth.  This enumerates every simple path of the graph when
    given fuel > number of nodes. -/
def simplePathsAux (G : NXGraph) (t : Coord) :
    ℕ → Coord → List Coord → List (List Coord)
  | 0, _, _ => []
  | fuel + 1, cur, visited =>
    if cur = t then [[cur]]
    else
      ((neighborsOf G cur).filter (fun nb => ¬ nb ∈ visited)).flatMap
        (fun nb => (simplePathsAux G t fuel nb (cur :: visited)).map (fun q => cur :: q))

/-- All simple paths between two nodes. -/
def simplePaths (G : NXGraph) (s t : Coord) : List (List Coord) :=
  simplePathsAux G t (G.nodes.length + 1) s [s]

/-- Total weight of a path: sum of the `length` attributes along it. -/
noncomputable def pathWeight (p : List Coord) : ℝ :=
  ((consecPairs p).map (fun e => edgeWeight e.1 e.2)).sum

open Classical in
/-- Model of the path `nx.shortest_path` (Dijkstra) returns: a path of
    minimal total weight among all simple paths (the first one under the
    enumeration order, matching a deterministic Dijkstra). -/
noncomputable def selectShortest (p : List Coord) (ps : List (List Coord)) : List Coord :=
  ps.foldl (fun best q => if pathWeight q < pathWeight best then q else best) p

/-- Result dict of compute_shortest_path / compute_safe_route.  Fields of
    `Option` type are keys the source only sometimes writes; `none` means
    the key is absent.  The `geometry` and `path_details` entries are
    projections of `path` and are not modelled separately. -/
structure RouteResult where
  path : List Coord
  path_coordinates : List Coord
  total_distance_meters : ℝ
  total_distance_km : ℝ
  num_segments : ℕ
  safety_status : Option String
  avoided_disaster_zones : Option ℕ
  safety_score : Option ℝ

/-- route_optimizer.compute_shortest_path (default Dijkstra mode; the A*
    mode uses the same weights and differs only in search strategy).  `None`
    when nearest-node snapping fails on either endpoint or when
    `nx.shortest_path` raises NetworkXNoPath (no simple path exists). -/
noncomputable def compute_shortest_path (G : NXGraph) (startPoint endPoint : Coord) :
    Option RouteResult :=
  match find_nearest_node G startPoint, find_nearest_node G endPoint with
  | some s, some t =>
    match simplePaths G s t with
    | [] => none
    | p :: ps =>
      let best := selectShortest p ps
      let total := pathWeight best
      some
        { path := best
          path_coordinates := best
          total_distance_meters := pyRound2 total
          total_distance_km := pyRound2 (total / 1000)
          num_segments := best.length - 1
          safety_status := none
          avoided_disaster_zones := none
          safety_score := none }
  | _, _ => none

/-- route_optimizer.compute_safe_route, generic in the hazard geometry type
    `H`.  Returns the route (`None` as `none`) together with the post-state
    of `disaster_zones_gdf`, which no statement of the body assigns into.
    The only statement of the `try` body that can raise is
    `safe_roads[safe_roads.get("is_blocked", False) == False]`: when the
    column is absent, `.get` yields the scalar `False`, `False == False`
    yields the scalar `True`, and indexing the frame with a scalar raises
    KeyError; the enclosing except returns `None`, inlined here at the raise
    site.  `bufferDistance` defaults to 1000 in the source signature. -/
noncomputable def compute_safe_route {H : Type}
    (buf : H → ℝ → Except GeoErr H)
    (ovRoads : List (ℕ × Road) → List H → Except GeoErr (List ((ℕ × Road) × H)))
    (roadsGdf : RoadsGdf) (startPoint endPoint : Coord)
    (disasterZones : List H) (bufferDistance : ℝ) :
    Option RouteResult × List H :=
  let safe0 : List (ℕ × Road) :=
    if disasterZones.length > 0 then
      let disasterBuffered := create_buffer buf disasterZones bufferDistance
      let unsafeRoads := spatial_intersection ovRoads roadsGdf.rows disasterBuffered
      let unsafeIndices := List.range unsafeRoads.length
      roadsGdf.rows.filter (fun r => decide (¬ r.1 ∈ unsafeIndices))
    else roadsGdf.rows
  if roadsGdf.hasBlockedCol = false then (none, disasterZones)
  else
    let safeRoads := safe0.filter (fun r => r.2.is_blocked = false)
    if safeRoads.length = 0 then (none, disasterZones)
    else
      let graph := build_road_network safeRoads
      if graph.nodes.length = 0 then (none, disasterZones)
      else
        match compute_shortest_path graph startPoint endPoint with
        | some r =>
          (some { r with
                    safety_status := some "safe"
                    avoided_disaster_zones := some disasterZones.length },
           disasterZones)
        | none => (none, disasterZones)

/-! ## route_optimizer.py: safety scoring -/

/-- Minimum of a list of reals (the `min_distance` fold of the source, which
    starts from `float("inf")`; for a nonempty list this equals the fold
    from the first element). -/
noncomputable def minFold : List ℝ → Option ℝ
  | [] => none
  | x :: xs => some (xs.foldl min x)

/-- route_optimizer.calculate_route_safety_score.  `dist` is shapely
    `geometry.distance`, which may raise; any raise inside the loop is
    caught and yields the neutral 50.0.  The `none` branch of `minFold` is
    unreachable (mapM preserves length and the zone list is nonempty there);
    its value 100 matches the `min_distance = inf` limit of the formula. -/
noncomputable def calculate_route_safety_score {R A : Type}
    (dist : R → A → Except GeoErr ℝ)
    (routeGeometry : R) (disasterZones : List A) : ℝ :=
  if disasterZones.length = 0 then 100
  else
    match disasterZones.mapM (fun z => dist routeGeometry z) with
    | .error _ => 50
    | .ok ds =>
      match minFold ds with
      | none => 100
      | some m => pyRound2 (100 * (1 - Real.exp (-(m * 111000) / 5000)))

/-! ## Specification-side definitions (worded from the spec, for comparison) -/

/-- Severity tier written exactly as the specification words it: evaluate
    the thresholds top-down, first match wins. -/
def specSeverity (p : ℚ) (a : ℚ) : String :=
  if p > 100000 ∨ a > 1000 then "critical"
  else if p > 10000 ∨ a > 100 then "high"
  else if p > 1000 ∨ a > 10 then "medium"
  else "low"

/-- Affected population as claim C6 words it: the sum of the population
    attribute over the boundary features that intersect the hazard geometry,
    each intersecting boundary feature counted exactly once. -/
def claimAffectedPopulation {Z B : Type} (inter : B → Z → Bool)
    (adminRows : List (B × ℤ)) (hazardRows : List Z) : ℤ :=
  ((adminRows.filter (fun b => hazardRows.any (fun z => inter b.1 z))).map
    (fun b => b.2)).sum

/-- Numeric rank of a severity tier, for stating monotonicity. -/
def sevRank (s : String) : ℕ :=
  if s = "critical" then 3
  else if s = "high" then 2
  else if s = "medium" then 1
  else 0

/-- A walk from s to t in the graph: nonempty vertex list starting at s,
    ending at t, each consecutive pair an edge. -/
def IsWalk (G : NXGraph) (s t : Coord) (p : List Coord) : Prop :=
  p.head? = some s ∧ p.getLast? = some t ∧
    List.Chain' (fun a b => edgeMem G.edges a b = true) p

/-- The set of distinct undirected edges induced by a list of coordinate
    pairs. -/
def undirSet (ps : List (Coord × Coord)) : Finset (Sym2 Coord) :=
  (ps.map (fun p => s(p.1, p.2))).toFinset

/-! ## Helper lemmas -/

lemma round_eq_of {x : ℝ} {n : ℤ} (h1 : (n : ℝ) - 1 / 2 ≤ x) (h2 : x < (n : ℝ) + 1 / 2) :
    round x = n := by
  rw [round_eq]
  refine Int.floor_eq_iff.mpr ⟨?_, ?_⟩ <;> linarith

lemma sevRank_assess (p a : ℚ) :
    sevRank (assess_severity p a) =
      if p > 100000 ∨ a > 1000 then 3
      else if p > 10000 ∨ a > 100 then 2
      else if p > 1000 ∨ a > 10 then 1
      else 0 := by
  unfold assess_severity sevRank
  split_ifs <;> simp_all

lemma rankIf_mono {c1 c2 c3 d1 d2 d3 : Prop}
    [Decidable c1] [Decidable c2] [Decidable c3]
    [Decidable d1] [Decidable d2] [Decidable d3]
    (h1 : c1 → d1) (h2 : c2 → d2) (h3 : c3 → d3) :
    (if c1 then 3 else if c2 then 2 else if c3 then 1 else 0 : ℕ) ≤
      (if d1 then 3 else if d2 then 2 else if d3 then 1 else 0) := by
  split_ifs <;> simp_all

lemma mapM_ok_nil {A R : Type} (f : A → Except GeoErr R) :
    List.mapM f ([] : List A) = .ok [] := rfl

lemma score_eq_formula {R A : Type}
    (dist : R → A → Except GeoErr ℝ) (routeGeometry : R) (zones : List A)
    (ds : List ℝ) (m : ℝ)
    (hok : zones.mapM (fun z => dist routeGeometry z) = .ok ds)
    (hmin : minFold ds = some m) :
    calculate_route_safety_score dist routeGeometry zones =
      pyRound2 (100 * (1 - Real.exp (-(m * 111000) / 5000))) := by
  cases zones with
  | nil =>
    rw [mapM_ok_nil] at hok
    cases hok
    simp [minFold] at hmin
  | cons z zs =>
    unfold calculate_route_safety_score
    rw [hok]
    simp [hmin]

lemma round_nonneg {x : ℝ} (hx : 0 ≤ x) : 0 ≤ round x := by
  rw [round_eq]
  exact Int.floor_nonneg.mpr (by linarith)

lemma round_le_of_lt {x : ℝ} {n : ℤ} (hx : x < n) : round x ≤ n := by
  rw [round_eq]
  have h1 : (⌊x + 1 / 2⌋ : ℝ) ≤ x + 1 / 2 := Int.floor_le _
  have h2 : (⌊x + 1 / 2⌋ : ℝ) < (n : ℝ) + 1 := by linarith
  exact_mod_cast Int.lt_add_one_iff.mp (by exact_mod_cast h2)

/-! ## C2: route safety score -/

/-- C2 amended: with no hazard zones the score is exactly 100; with hazard
    zones and all distance computations succeeding, the score is the
    two-decimal rounding of 100·(1 − e^(−d·111000/5000)) where d is the
    minimum distance (in degrees) to any zone; for nonnegative d the score
    lies in [0, 100] (rounding can reach exactly 100 for distant hazards);
    at distance 0 the score is exactly 0; and if any distance computation
    fails the function returns the neutral 50 instead of raising. -/
theorem calculate_route_safety_score_spec {R A : Type}
    (dist : R → A → Except GeoErr ℝ) (routeGeometry : R) (zones : List A) :
    (zones = [] → calculate_route_safety_score dist routeGeometry zones = 100) ∧
    (∀ ds m, zones.mapM (fun z => dist routeGeometry z) = .ok ds →
      minFold ds = some m →
      calculate_route_safety_score dist routeGeometry zones =
        pyRound2 (100 * (1 - Real.exp (-(m * 111000) / 5000))) ∧
      (0 ≤ m → 0 ≤ calculate_route_safety_score dist routeGeometry zones ∧
        calculate_route_safety_score dist routeGeometry zones ≤ 100) ∧
      (m = 0 → calculate_route_safety_score dist routeGeometry zones = 0)) ∧
    (∀ e, zones.mapM (fun z => dist routeGeometry z) = .error e →
      calculate_route_safety_score dist routeGeometry zones = 50) := by
  refine ⟨?_, ?_, ?_⟩
  · intro h
    subst h
    simp [calculate_route_safety_score]
  · intro ds m hok hmin
    have hval := score_eq_formula dist routeGeometry zones ds m hok hmin
    refine ⟨hval, ?_, ?_⟩
    · intro hm
      have hexp_pos : 0 < Real.exp (-(m * 111000) / 5000) := Real.exp_pos _
      have hexp_le : Real.exp (-(m * 111000) / 5000) ≤ 1 := by
        rw [Real.exp_le_one_iff]
        have : 0 ≤ m * 111000 := by positivity
        linarith
      set v : ℝ := 100 * (1 - Real.exp (-(m * 111000) / 5000)) with hv
      have hv0 : 0 ≤ v := by rw [hv]; nlinarith
      have hv100 : v < 100 := by rw [hv]; nlinarith
      rw [hval]
      unfold pyRound2
      constructor
      · have : (0 : ℤ) ≤ round (v * 100) := round_nonneg (by nlinarith)
        have : (0 : ℝ) ≤ ((round (v * 100) : ℤ) : ℝ) := by exact_mod_cast this
        linarith
      · have : round (v * 100) ≤ (10000 : ℤ) := round_le_of_lt (by push_cast; nlinarith)
        have : ((round (v * 100) : ℤ) : ℝ) ≤ 10000 := by exact_mod_cast this
        linarith
    · intro hm
      subst hm
      rw [hval]
      norm_num [pyRound2]
  · intro e herr
    cases zones with
    | nil => rw [mapM_ok_nil] at herr; cases herr
    | cons z zs =>
      unfold calculate_route_safety_score
      rw [herr]
      simp

/-- Witness for C2 amended at concrete inputs: no zones gives 100; one zone
    at distance 2 (degrees) gives the rounded formula and a score in
    [0, 100]; one zone at distance 0 gives 0; a failing distance gives 50. -/
theorem calculate_route_safety_score_spec_witness :
    calculate_route_safety_score
        (fun (_ : Unit) (_ : Unit) => (Except.ok 2 : Except GeoErr ℝ)) ()
        ([] : List Unit) = 100 ∧
    calculate_route_safety_score
        (fun (_ : Unit) (_ : Unit) => (Except.ok 2 : Except GeoErr ℝ)) () [()] =
      pyRound2 (100 * (1 - Real.exp (-((2 : ℝ) * 111000) / 5000))) ∧
    (0 ≤ calculate_route_safety_score
        (fun (_ : Unit) (_ : Unit) => (Except.ok 2 : Except GeoErr ℝ)) () [()] ∧
      calculate_route_safety_score
        (fun (_ : Unit) (_ : Unit) => (Except.ok 2 : Except GeoErr ℝ)) () [()] ≤ 100) ∧
    calculate_route_safety_score
        (fun (_ : Unit) (_ : Unit) => (Except.ok 0 : Except GeoErr ℝ)) () [()] = 0 ∧
    calculate_route_safety_score
        (fun (_ : Unit) (_ : Unit) =>
          (Except.error GeoErr.topology : Except GeoErr ℝ)) () [()] = 50 :=
  ⟨(calculate_route_safety_score_spec
      (fun (_ : Unit) (_ : Unit) => (Except.ok 2 : Except GeoErr ℝ)) () _).1 rfl,
   ((calculate_route_safety_score_spec
      (fun (_ : Unit) (_ : Unit) => (Except.ok 2 : Except GeoErr ℝ)) ()
      [()]).2.1 [2] 2 rfl rfl).1,
   ((calculate_route_safety_score_spec
      (fun (_ : Unit) (_ : Unit) => (Except.ok 2 : Except GeoErr ℝ)) ()
      [()]).2.1 [2] 2 rfl rfl).2.1 (by norm_num),
   ((calculate_route_safety_score_spec
      (fun (_ : Unit) (_ : Unit) => (Except.ok 0 : Except GeoErr ℝ)) ()
      [()]).2.1 [0] 0 rfl rfl).2.2 rfl,
   (calculate_route_safety_score_spec
      (fun (_ : Unit) (_ : Unit) => (Except.error GeoErr.topology : Except GeoErr ℝ)) ()
      [()]).2.2 GeoErr.topology rfl⟩

/-- C2 counterexample: with one hazard zone at distance 1 degree the
    function returns exactly 100 (the two-decimal rounding pushes the value
    up to 100), while the claim's unrounded formula value is strictly below
    100 — so the claimed range [0, 100) and the claimed exact formula both
    fail on the code. -/
theorem calculate_route_safety_score_counterexample :
    calculate_route_safety_score
        (fun (_ : Unit) (_ : Unit) => (Except.ok 1 : Except GeoErr ℝ)) () [()] = 100 ∧
      100 * (1 - Real.exp (-((1 : ℝ) * 111000) / 5000)) < 100 := by
  have hexp_pos : 0 < Real.exp (-((1 : ℝ) * 111000) / 5000) := Real.exp_pos _
  have hbig : (20000 : ℝ) < Real.exp (-((-(1 : ℝ) * 111000) / 5000)) := by
    have harg : (-((-(1 : ℝ) * 111000) / 5000)) = ((10 : ℕ) : ℝ) * 2.22 := by norm_num
    rw [harg, Real.exp_nat_mul]
    have h1 : (3.22 : ℝ) ≤ Real.exp 2.22 := by
      have := Real.add_one_le_exp (2.22 : ℝ)
      linarith
    have h2 : (3.22 : ℝ) ^ (10 : ℕ) ≤ Real.exp 2.22 ^ (10 : ℕ) :=
      pow_le_pow_left₀ (by norm_num) h1 10
    have h3 : (20000 : ℝ) < (3.22 : ℝ) ^ (10 : ℕ) := by norm_num
    linarith
  have hsmall : Real.exp (-((1 : ℝ) * 111000) / 5000) < 1 / 20000 := by
    have hrw : (-((1 : ℝ) * 111000) / 5000) = -(-((-(1 : ℝ) * 111000) / 5000)) := by ring
    rw [hrw, Real.exp_neg]
    have hpos : (0 : ℝ) < Real.exp (-((-(1 : ℝ) * 111000) / 5000)) := Real.exp_pos _
    rw [inv_lt_iff_one_lt_mul₀ hpos] at *
    · nlinarith
  constructor
  · have heval := score_eq_formula
      (fun (_ : Unit) (_ : Unit) => (Except.ok 1 : Except GeoErr ℝ)) () [()]
      [1] 1 rfl rfl
    rw [heval]
    unfold pyRound2
    set t : ℝ := Real.exp (-((1 : ℝ) * 111000) / 5000) with ht
    have hround : round ((100 * (1 - t)) * 100) = (10000 : ℤ) := by
      apply round_eq_of
      · push_cast
        nlinarith
      · push_cast
        nlinarith
    rw [hround]
    norm_num
  · nlinarith

/-! ## C6: affected population aggregation -/

lemma analyze_snd_eq_calculate_area {Z B P S R : Type}
    (areaM2 : Z → Except GeoErr ℚ)
    (ovAdmin : List (B × ℤ) → List Z → Except GeoErr (List ((B × ℤ) × Z)))
    (ovHosp : List P → List Z → Except GeoErr (List (P × Z)))
    (ovShel : List S → List Z → Except GeoErr (List (S × Z)))
    (ovRoads : List (R × ℚ) → List Z → Except GeoErr (List ((R × ℚ) × Z)))
    (disasterZone : GeoLayer Z) (adminBoundaries : AdminLayer B)
    (hospitals : List P) (shelters : List S) (roads : RoadsImpactLayer R) :
    (analyze_disaster_impact areaM2 ovAdmin ovHosp ovShel ovRoads disasterZone
        adminBoundaries hospitals shelters roads).2 =
      calculate_area areaM2 disasterZone := by
  unfold analyze_disaster_impact
  cases h : (calculate_area areaM2 disasterZone).areaCol <;> simp [h]

lemma analyze_population_eval {Z B P S R : Type}
    (areaM2 : Z → Except GeoErr ℚ)
    (interA : (B × ℤ) → Z → Bool)
    (ovAdmin : List (B × ℤ) → List Z → Except GeoErr (List ((B × ℤ) × Z)))
    (ovHosp : List P → List Z → Except GeoErr (List (P × Z)))
    (ovShel : List S → List Z → Except GeoErr (List (S × Z)))
    (ovRoads : List (R × ℚ) → List Z → Except GeoErr (List ((R × ℚ) × Z)))
    (disasterZone : GeoLayer Z) (adminBoundaries : AdminLayer B)
    (hospitals : List P) (shelters : List S) (roads : RoadsImpactLayer R)
    (vals : List ℚ)
    (hArea : disasterZone.rows.mapM areaM2 = .ok vals)
    (hOv : ovAdmin adminBoundaries.rows disasterZone.rows =
      .ok (overlayPairs interA adminBoundaries.rows disasterZone.rows)) :
    ((analyze_disaster_impact areaM2 ovAdmin ovHosp ovShel ovRoads disasterZone
        adminBoundaries hospitals shelters roads).1.map
      (fun rep => rep.estimated_affected_population)) =
      some (if adminBoundaries.hasPop
        then ((overlayPairs interA adminBoundaries.rows disasterZone.rows).map
          (fun r => r.1.2)).sum
        else 0) := by
  unfold analyze_disaster_impact calculate_area
  rw [hArea]
  simp [spatial_intersection, hOv]

/-- C6 amended: when the overlay succeeds, the estimated affected population
    is the sum of the population attribute over the intersecting
    (boundary, hazard-feature) pairs produced by the overlay — a boundary is
    counted once per hazard feature it intersects, not once overall — and
    when the boundary layer has no population column the metric degrades to
    zero while the report is still produced. -/
theorem analyze_impact_population_pairwise {Z B P S R : Type}
    (areaM2 : Z → Except GeoErr ℚ)
    (interA : (B × ℤ) → Z → Bool)
    (ovAdmin : List (B × ℤ) → List Z → Except GeoErr (List ((B × ℤ) × Z)))
    (ovHosp : List P → List Z → Except GeoErr (List (P × Z)))
    (ovShel : List S → List Z → Except GeoErr (List (S × Z)))
    (ovRoads : List (R × ℚ) → List Z → Except GeoErr (List ((R × ℚ) × Z)))
    (disasterZone : GeoLayer Z) (adminBoundaries : AdminLayer B)
    (hospitals : List P) (shelters : List S) (roads : RoadsImpactLayer R)
    (vals : List ℚ)
    (hArea : disasterZone.rows.mapM areaM2 = .ok vals)
    (hOv : ovAdmin adminBoundaries.rows disasterZone.rows =
      .ok (overlayPairs interA adminBoundaries.rows disasterZone.rows)) :
    ((analyze_disaster_impact areaM2 ovAdmin ovHosp ovShel ovRoads disasterZone
        adminBoundaries hospitals shelters roads).1.map
      (fun rep => rep.estimated_affected_population)) =
      some (if adminBoundaries.hasPop
        then ((overlayPairs interA adminBoundaries.rows disasterZone.rows).map
          (fun r => r.1.2)).sum
        else 0) :=
  analyze_population_eval areaM2 interA ovAdmin ovHosp ovShel ovRoads disasterZone
    adminBoundaries hospitals shelters roads vals hArea hOv

/-- Witness for C6 amended: one boundary with population 100, two hazard
    features both intersecting it, overlay succeeding — the reported value
    is the pairwise sum 200. -/
theorem analyze_impact_population_pairwise_witness :
    ((analyze_disaster_impact
        (fun (_ : ℕ) => (Except.ok 0 : Except GeoErr ℚ))
        (fun g1 g2 => Except.ok (overlayPairs (fun (_ : ℕ × ℤ) (_ : ℕ) => true) g1 g2))
        (fun (_ : List ℕ) (_ : List ℕ) => (Except.ok [] : Except GeoErr (List (ℕ × ℕ))))
        (fun (_ : List ℕ) (_ : List ℕ) => (Except.ok [] : Except GeoErr (List (ℕ × ℕ))))
        (fun (_ : List (ℕ × ℚ)) (_ : List ℕ) =>
          (Except.ok [] : Except GeoErr (List ((ℕ × ℚ) × ℕ))))
        { rows := [0, 1], areaCol := none }
        { rows := [(0, 100)], hasPop := true }
        [] [] { rows := [], hasLen := false }).1.map
      (fun rep => rep.estimated_affected_population)) =
      some (if ({ rows := [(0, 100)], hasPop := true } : AdminLayer ℕ).hasPop
        then ((overlayPairs (fun (_ : ℕ × ℤ) (_ : ℕ) => true) [(0, 100)] [0, 1]).map
          (fun r => r.1.2)).sum
        else 0) :=
  analyze_impact_population_pairwise
    (fun (_ : ℕ) => (Except.ok 0 : Except GeoErr ℚ))
    (fun (_ : ℕ × ℤ) (_ : ℕ) => true)
    _ _ _ _
    { rows := [0, 1], areaCol := none }
    { rows := [(0, 100)], hasPop := true }
    [] [] { rows := [], hasLen := false }
    [0, 0] rfl rfl

/-- C6 counterexample: one boundary with population 100 intersected by two
    hazard features is counted twice — the report says 200 affected people
    while the claim's once-per-boundary sum is 100. -/
theorem analyze_impact_population_counterexample :
    ((analyze_disaster_impact
        (fun (_ : ℕ) => (Except.ok 0 : Except GeoErr ℚ))
        (fun g1 g2 => Except.ok (overlayPairs (fun (_ : ℕ × ℤ) (_ : ℕ) => true) g1 g2))
        (fun (_ : List ℕ) (_ : List ℕ) => (Except.ok [] : Except GeoErr (List (ℕ × ℕ))))
        (fun (_ : List ℕ) (_ : List ℕ) => (Except.ok [] : Except GeoErr (List (ℕ × ℕ))))
        (fun (_ : List (ℕ × ℚ)) (_ : List ℕ) =>
          (Except.ok [] : Except GeoErr (List ((ℕ × ℚ) × ℕ))))
        { rows := [0, 1], areaCol := none }
        { rows := [(0, 100)], hasPop := true }
        [] [] { rows := [], hasLen := false }).1.map
      (fun rep => rep.estimated_affected_population)) = some 200 ∧
      claimAffectedPopulation (fun (_ : ℕ) (_ : ℕ) => true) [(0, 100)] [0, 1] = 100 ∧
      (200 : ℤ) ≠ 100 := by
  refine ⟨?_, by decide, by decide⟩
  rw [analyze_population_eval
    (fun (_ : ℕ) => (Except.ok 0 : Except GeoErr ℚ))
    (fun (_ : ℕ × ℤ) (_ : ℕ) => true)
    _ _ _ _
    { rows := [0, 1], areaCol := none }
    { rows := [(0, 100)], hasPop := true }
    [] [] { rows := [], hasLen := false }
    [0, 0] rfl rfl]
  decide

/-! ## C9: hazard layer mutation -/

/-- C9 counterexample: analyze_disaster_impact mutates the hazard frame
    passed to it — on return the caller's disaster-zone GeoDataFrame has
    gained an area_sqkm column. -/
theorem hazard_mutation_counterexample :
    ((analyze_disaster_impact
        (fun (_ : ℕ) => (Except.ok 2000000 : Except GeoErr ℚ))
        (fun (_ : List (ℕ × ℤ)) (_ : List ℕ) =>
          (Except.ok [] : Except GeoErr (List ((ℕ × ℤ) × ℕ))))
        (fun (_ : List ℕ) (_ : List ℕ) => (Except.ok [] : Except GeoErr (List (ℕ × ℕ))))
        (fun (_ : List ℕ) (_ : List ℕ) => (Except.ok [] : Except GeoErr (List (ℕ × ℕ))))
        (fun (_ : List (ℕ × ℚ)) (_ : List ℕ) =>
          (Except.ok [] : Except GeoErr (List ((ℕ × ℚ) × ℕ))))
        { rows := [0], areaCol := none }
        { rows := [], hasPop := false }
        [] [] { rows := [], hasLen := false }).2 =
      { rows := [0], areaCol := some [2] }) ∧
      ({ rows := [0], areaCol := some [2] } : GeoLayer ℕ) ≠
        { rows := [0], areaCol := none } := by
  constructor
  · rw [analyze_snd_eq_calculate_area]
    unfold calculate_area
    have h : List.mapM (fun (_ : ℕ) => (Except.ok 2000000 : Except GeoErr ℚ)) [0] =
        .ok [2000000] := rfl
    rw [h]
    norm_num
  · simp

/-- C9 amended: compute_safe_route leaves the hazard set unchanged, but
    analyze_disaster_impact returns a mutated hazard frame: when the area
    computation succeeds, the caller's frame gains the area_sqkm column. -/
theorem hazard_read_only_amended :
    (∀ (H : Type) (buf : H → ℝ → Except GeoErr H)
      (ovRoads : List (ℕ × Road) → List H → Except GeoErr (List ((ℕ × Road) × H)))
      (roadsGdf : RoadsGdf) (startPoint endPoint : Coord)
      (disasterZones : List H) (bufferDistance : ℝ),
      (compute_safe_route buf ovRoads roadsGdf startPoint endPoint disasterZones
          bufferDistance).2 = disasterZones) ∧
    (∀ (Z B P S R : Type) (areaM2 : Z → Except GeoErr ℚ)
      (ovAdmin : List (B × ℤ) → List Z → Except GeoErr (List ((B × ℤ) × Z)))
      (ovHosp : List P → List Z → Except GeoErr (List (P × Z)))
      (ovShel : List S → List Z → Except GeoErr (List (S × Z)))
      (ovRoads : List (R × ℚ) → List Z → Except GeoErr (List ((R × ℚ) × Z)))
      (disasterZone : GeoLayer Z) (adminBoundaries : AdminLayer B)
      (hospitals : List P) (shelters : List S) (roads : RoadsImpactLayer R)
      (vals : List ℚ), disasterZone.rows.mapM areaM2 = .ok vals →
      (analyze_disaster_impact areaM2 ovAdmin ovHosp ovShel ovRoads disasterZone
          adminBoundaries hospitals shelters roads).2 =
        { disasterZone with areaCol := some (vals.map (fun v => v / 1000000)) }) := by
  constructor
  · intro H buf ovRoads roadsGdf startPoint endPoint disasterZones bufferDistance
    simp only [compute_safe_route]
    split_ifs <;> try rfl
    all_goals (split <;> rfl)
  · intro Z B P S R areaM2 ovAdmin ovHosp ovShel ovRoads disasterZone
      adminBoundaries hospitals shelters roads vals hArea
    rw [analyze_snd_eq_calculate_area]
    unfold calculate_area
    rw [hArea]

/-- Witness for C9 amended at concrete inputs. -/
theorem hazard_read_only_amended_witness :
    (compute_safe_route
        (fun (_ : Unit) (_ : ℝ) => (Except.ok () : Except GeoErr Unit))
        (fun (_ : List (ℕ × Road)) (_ : List Unit) =>
          (Except.ok [] : Except GeoErr (List ((ℕ × Road) × Unit))))
        { rows := [], hasBlockedCol := true } (0, 0) (0, 0) [()] 1000).2 = [()] ∧
    (analyze_disaster_impact
        (fun (_ : ℕ) => (Except.ok 2000000 : Except GeoErr ℚ))
        (fun (_ : List (ℕ × ℤ)) (_ : List ℕ) =>
          (Except.ok [] : Except GeoErr (List ((ℕ × ℤ) × ℕ))))
        (fun (_ : List ℕ) (_ : List ℕ) => (Except.ok [] : Except GeoErr (List (ℕ × ℕ))))
        (fun (_ : List ℕ) (_ : List ℕ) => (Except.ok [] : Except GeoErr (List (ℕ × ℕ))))
        (fun (_ : List (ℕ × ℚ)) (_ : List ℕ) =>
          (Except.ok [] : Except GeoErr (List ((ℕ × ℚ) × ℕ))))
        { rows := [0], areaCol := none }
        { rows := [], hasPop := false }
        [] [] { rows := [], hasLen := false }).2 =
      { rows := [0], areaCol := some ([2000000].map (fun v => v / 1000000)) } :=
  ⟨hazard_read_only_amended.1 Unit _ _ _ (0, 0) (0, 0) [()] 1000,
   hazard_read_only_amended.2 ℕ ℕ ℕ ℕ ℕ _ _ _ _ _
     { rows := [0], areaCol := none } { rows := [], hasPop := false }
     [] [] { rows := [], hasLen := false } [2000000] rfl⟩

/-- C5: assess_severity returns critical/high/medium/low by the spec's
    top-down threshold table (first match wins), and the returned tier is
    monotonically non-decreasing in population with area fixed and in area
    with population fixed. -/
theorem assess_severity_correct :
    (∀ p a : ℚ, assess_severity p a = specSeverity p a) ∧
    (∀ p p' a : ℚ, p ≤ p' →
      sevRank (assess_severity p a) ≤ sevRank (assess_severity p' a)) ∧
    (∀ p a a' : ℚ, a ≤ a' →
      sevRank (assess_severity p a) ≤ sevRank (assess_severity p a')) := by
  refine ⟨fun p a => rfl, ?_, ?_⟩
  · intro p p' a hpp
    rw [sevRank_assess, sevRank_assess]
    exact rankIf_mono
      (Or.imp (fun h => lt_of_lt_of_le h hpp) id)
      (Or.imp (fun h => lt_of_lt_of_le h hpp) id)
      (Or.imp (fun h => lt_of_lt_of_le h hpp) id)
  · intro p a a' haa
    rw [sevRank_assess, sevRank_assess]
    exact rankIf_mono
      (Or.imp id (fun h => lt_of_lt_of_le h haa))
      (Or.imp id (fun h => lt_of_lt_of_le h haa))
      (Or.imp id (fun h => lt_of_lt_of_le h haa))

/-- Witness for C5 at concrete inputs: with 50000 ≤ 200000 people and
    5 ≤ 500 km², the tier never decreases. -/
theorem assess_severity_correct_witness :
    assess_severity 50000 5 = specSeverity 50000 5 ∧
    (50000 : ℚ) ≤ 200000 ∧
    sevRank (assess_severity 50000 5) ≤ sevRank (assess_severity 200000 5) ∧
    (5 : ℚ) ≤ 500 ∧
    sevRank (assess_severity 50000 5) ≤ sevRank (assess_severity 50000 500) :=
  ⟨assess_severity_correct.1 50000 5,
   by norm_num,
   assess_severity_correct.2.1 50000 200000 5 (by norm_num),
   by norm_num,
   assess_severity_correct.2.2 50000 5 500 (by norm_num)⟩

/-! ## C7: spatial_difference failure contract -/

/-- C7 counterexample: when the overlay primitive fails, spatial_difference
    returns its first input unchanged, not the empty set: with gdf1 = [7]
    the result is [7] ≠ []. -/
theorem spatial_difference_failure_counterexample :
    spatial_difference
        (fun (_ : List ℕ) (_ : List ℕ) =>
          (Except.error GeoErr.topology : Except GeoErr (List ℕ)))
        [7] [] = [7] ∧
      ([7] : List ℕ) ≠ [] :=
  ⟨rfl, by simp⟩

/-- C7 amended: when the geometric overlay fails, spatial_difference returns
    its first input unchanged while spatial_intersection returns the empty
    set; neither raises (both are total). -/
theorem spatial_difference_failure_contract {A B C : Type}
    (ovD : List A → List B → Except GeoErr (List A))
    (ovI : List A → List B → Except GeoErr (List C))
    (gdf1 : List A) (gdf2 : List B) (e e' : GeoErr)
    (hD : ovD gdf1 gdf2 = .error e) (hI : ovI gdf1 gdf2 = .error e') :
    spatial_difference ovD gdf1 gdf2 = gdf1 ∧
      spatial_intersection ovI gdf1 gdf2 = [] := by
  constructor <;> simp [spatial_difference, spatial_intersection, hD, hI]

/-- Witness for C7 amended at a concrete failing overlay. -/
theorem spatial_difference_failure_contract_witness :
    spatial_difference
        (fun (_ : List ℕ) (_ : List ℕ) =>
          (Except.error GeoErr.topology : Except GeoErr (List ℕ)))
        [1, 2] [5] = [1, 2] ∧
      spatial_intersection
        (fun (_ : List ℕ) (_ : List ℕ) =>
          (Except.error GeoErr.topology : Except GeoErr (List (ℕ × ℕ))))
        [1, 2] [5] = [] :=
  spatial_difference_failure_contract _ _ [1, 2] [5]
    GeoErr.topology GeoErr.topology rfl rfl

/-! ## C3: road network node and edge counts -/

lemma consecPairs_short {α : Type} (l : List α) (h : l.length ≤ 1) :
    consecPairs l = [] := by
  match l with
  | [] => rfl
  | [_] => rfl
  | a :: b :: rest => simp at h

lemma build_eq_foldl (roads : List (ℕ × Road)) :
    build_road_network roads =
      (allPairs roads).foldl (fun G p => addEdge G p.1 p.2)
        { nodes := [], edges := [] } := by
  unfold build_road_network allPairs
  rw [List.foldl_flatten, List.foldl_map]

lemma addNode_length_le (ns : List Coord) (c : Coord) :
    (addNode ns c).length ≤ ns.length + 1 := by
  unfold addNode
  split_ifs <;> simp

lemma foldl_addEdge_nodes_le (ps : List (Coord × Coord)) (G : NXGraph) :
    (ps.foldl (fun G' p => addEdge G' p.1 p.2) G).nodes.length ≤
      G.nodes.length + 2 * ps.length := by
  induction ps generalizing G with
  | nil => simp
  | cons p ps ih =>
    rw [List.foldl_cons]
    refine le_trans (ih (addEdge G p.1 p.2)) ?_
    have h1 := addNode_length_le G.nodes p.1
    have h2 := addNode_length_le (addNode G.nodes p.1) p.2
    have h3 : (addEdge G p.1 p.2).nodes.length ≤ G.nodes.length + 2 := by
      unfold addEdge
      dsimp
      omega
    rw [List.length_cons]
    omega

lemma edgeMem_iff (es : List (Coord × Coord)) (a b : Coord) :
    edgeMem es a b = true ↔ s(a, b) ∈ es.map (fun e => s(e.1, e.2)) := by
  unfold edgeMem
  rw [List.any_eq_true]
  simp only [decide_eq_true_eq, List.mem_map]
  constructor
  · rintro ⟨e, he, h⟩
    exact ⟨e, he, by rw [Sym2.eq_iff]; tauto⟩
  · rintro ⟨e, he, h⟩
    rw [Sym2.eq_iff] at h
    exact ⟨e, he, by tauto⟩

lemma foldl_addEdge_edges (ps : List (Coord × Coord)) (G : NXGraph)
    (hnd : (G.edges.map (fun e => s(e.1, e.2))).Nodup) :
    ((ps.foldl (fun G' p => addEdge G' p.1 p.2) G).edges.map
      (fun e => s(e.1, e.2))).Nodup ∧
    ((ps.foldl (fun G' p => addEdge G' p.1 p.2) G).edges.map
      (fun e => s(e.1, e.2))).toFinset =
      (G.edges.map (fun e => s(e.1, e.2))).toFinset ∪ undirSet ps := by
  induction ps generalizing G with
  | nil => exact ⟨hnd, by simp [undirSet]⟩
  | cons p ps ih =>
    rw [List.foldl_cons]
    by_cases hm : edgeMem G.edges p.1 p.2 = true
    · have hedges : (addEdge G p.1 p.2).edges = G.edges := by
        unfold addEdge
        simp [hm]
      obtain ⟨h1, h2⟩ := ih (addEdge G p.1 p.2) (by rw [hedges]; exact hnd)
      refine ⟨h1, ?_⟩
      rw [h2, hedges]
      have hp : s(p.1, p.2) ∈ G.edges.map (fun e => s(e.1, e.2)) :=
        (edgeMem_iff _ _ _).mp hm
      ext x
      simp only [undirSet, Finset.mem_union, List.mem_toFinset, List.map_cons,
        List.mem_cons]
      constructor
      · tauto
      · rintro (hx | rfl | hx)
        · exact Or.inl hx
        · exact Or.inl hp
        · exact Or.inr hx
    · have hedges : (addEdge G p.1 p.2).edges = G.edges ++ [p] := by
        unfold addEdge
        simp [hm]
      have hnotmem : s(p.1, p.2) ∉ G.edges.map (fun e => s(e.1, e.2)) :=
        fun hc => hm ((edgeMem_iff _ _ _).mpr hc)
      have hnd' : ((addEdge G p.1 p.2).edges.map (fun e => s(e.1, e.2))).Nodup := by
        rw [hedges, List.map_append]
        simp [List.nodup_append, hnd, hnotmem]
      obtain ⟨h1, h2⟩ := ih (addEdge G p.1 p.2) hnd'
      refine ⟨h1, ?_⟩
      rw [h2, hedges]
      ext x
      simp only [undirSet, Finset.mem_union, List.mem_toFinset, List.map_append,
        List.map_cons, List.map_nil, List.mem_append, List.mem_cons,
        List.not_mem_nil, or_false]
      tauto

lemma allPairs_length (roads : List (ℕ × Road)) :
    (allPairs roads).length = totalConsecPairs roads := by
  unfold allPairs totalConsecPairs
  rw [List.length_flatten, List.map_map]
  rfl

lemma build_edges_card (roads : List (ℕ × Road)) :
    (build_road_network roads).edges.length = (undirSet (allPairs roads)).card := by
  rw [build_eq_foldl]
  obtain ⟨h1, h2⟩ :=
    foldl_addEdge_edges (allPairs roads) { nodes := [], edges := [] } (by simp)
  have h3 := List.toFinset_card_of_nodup h1
  rw [List.length_map] at h3
  rw [← h3, h2]
  simp

/-- C3 amended: for every road set (in particular any with at least one
    two-point segment), the node count is at most twice the total
    consecutive-pair count, the edge count equals the number of DISTINCT
    unordered consecutive coordinate pairs (nx.Graph is a simple graph, so
    duplicate segments collapse, unlike the claimed multigraph equality),
    and a road degenerate to a single point contributes nothing. -/
theorem build_road_network_counts (roads : List (ℕ × Road))
    (_hseg : ∃ r ∈ roads, r.2.coords.length = 2) :
    (build_road_network roads).nodes.length ≤ 2 * totalConsecPairs roads ∧
    (build_road_network roads).edges.length = (undirSet (allPairs roads)).card ∧
    (∀ (pre post : List (ℕ × Road)) (i : ℕ) (rd : Road), rd.coords.length ≤ 1 →
      build_road_network (pre ++ (i, rd) :: post) =
        build_road_network (pre ++ post)) := by
  refine ⟨?_, build_edges_card roads, ?_⟩
  · rw [build_eq_foldl]
    have h := foldl_addEdge_nodes_le (allPairs roads) { nodes := [], edges := [] }
    rw [allPairs_length] at h
    simpa using h
  · intro pre post i rd hlen
    unfold build_road_network
    rw [List.foldl_append, List.foldl_append, List.foldl_cons]
    rw [show consecPairs (i, rd).2.coords = [] from consecPairs_short _ hlen]
    rfl

/-- Witness for C3 amended at a one-road set with a two-point segment. -/
theorem build_road_network_counts_witness :
    (∃ r ∈ [((0, { coords := [(0, 0), (1, 1)], is_blocked := false }) : ℕ × Road)],
      r.2.coords.length = 2) ∧
    ((build_road_network
        [(0, { coords := [(0, 0), (1, 1)], is_blocked := false })]).nodes.length ≤
      2 * totalConsecPairs [(0, { coords := [(0, 0), (1, 1)], is_blocked := false })] ∧
    (build_road_network
        [(0, { coords := [(0, 0), (1, 1)], is_blocked := false })]).edges.length =
      (undirSet (allPairs
        [(0, { coords := [(0, 0), (1, 1)], is_blocked := false })])).card ∧
    (∀ (pre post : List (ℕ × Road)) (i : ℕ) (rd : Road), rd.coords.length ≤ 1 →
      build_road_network (pre ++ (i, rd) :: post) =
        build_road_network (pre ++ post))) :=
  ⟨by decide,
   build_road_network_counts
     [(0, { coords := [(0, 0), (1, 1)], is_blocked := false })] (by decide)⟩

/-- C3 counterexample: two identical two-point roads give two consecutive
    pairs but only one graph edge (nx.Graph collapses the duplicate), so the
    claimed equality edge count = total consecutive-pair count fails. -/
theorem build_road_network_edge_count_counterexample :
    (build_road_network
        [(0, { coords := [(0, 0), (1, 1)], is_blocked := false }),
         (1, { coords := [(0, 0), (1, 1)], is_blocked := false })]).edges.length = 1 ∧
    totalConsecPairs
        [(0, { coords := [(0, 0), (1, 1)], is_blocked := false }),
         (1, { coords := [(0, 0), (1, 1)], is_blocked := false })] = 2 ∧
    (1 : ℕ) ≠ 2 := by
  refine ⟨by decide, by decide, by decide⟩

/-! ## C4: no-result outcomes of route computation -/

lemma simplePathsAux_sound (G : NXGraph) (t : Coord) :
    ∀ (fuel : ℕ) (cur : Coord) (visited : List Coord) (p : List Coord),
      p ∈ simplePathsAux G t fuel cur visited →
      p.head? = some cur ∧ p.getLast? = some t ∧
        List.Chain' (fun a b => edgeMem G.edges a b = true) p := by
  intro fuel
  induction fuel with
  | zero =>
    intro cur visited p hp
    simp [simplePathsAux] at hp
  | succ n ih =>
    intro cur visited p hp
    unfold simplePathsAux at hp
    by_cases hct : cur = t
    · subst hct
      rw [if_pos rfl] at hp
      simp only [List.mem_singleton] at hp
      subst hp
      exact ⟨rfl, rfl, List.chain'_singleton cur⟩
    · rw [if_neg hct, List.mem_flatMap] at hp
      obtain ⟨nb, hnb, hp⟩ := hp
      rw [List.mem_map] at hp
      obtain ⟨q, hq, rfl⟩ := hp
      obtain ⟨hqh, hql, hqc⟩ := ih nb (cur :: visited) q hq
      have hnb' : nb ∈ neighborsOf G cur := (List.mem_filter.mp hnb).1
      have hedge : edgeMem G.edges cur nb = true := (List.mem_filter.mp hnb').2
      cases q with
      | nil => simp at hqh
      | cons b q' =>
        have hb : b = nb := by simpa using hqh
        subst hb
        refine ⟨rfl, ?_, ?_⟩
        · rw [List.getLast?_cons_cons]
          exact hql
        · rw [List.chain'_cons]
          exact ⟨hedge, hqc⟩

/-- C4: route computation returns the no-result value `none` (never an
    exception — the embedded function is total) both when the graph has no
    nodes, so nearest-node snapping fails, and when no walk exists between
    the two snapped endpoint nodes. -/
theorem compute_shortest_path_no_result (G : NXGraph) (startPoint endPoint : Coord) :
    (G.nodes = [] → compute_shortest_path G startPoint endPoint = none) ∧
    (∀ ns nt, find_nearest_node G startPoint = some ns →
      find_nearest_node G endPoint = some nt →
      (¬ ∃ p, IsWalk G ns nt p) →
      compute_shortest_path G startPoint endPoint = none) := by
  constructor
  · intro h
    simp [compute_shortest_path, find_nearest_node, h]
  · intro ns nt hns hnt hnw
    have hsp : simplePaths G ns nt = [] := by
      cases hsp : simplePaths G ns nt with
      | nil => rfl
      | cons p ps =>
        exfalso
        apply hnw
        have hp : p ∈ simplePaths G ns nt := by
          rw [hsp]
          exact List.mem_cons_self _ _
        obtain ⟨h1, h2, h3⟩ :=
          simplePathsAux_sound G nt (G.nodes.length + 1) ns [ns] p hp
        exact ⟨p, h1, h2, h3⟩
    simp [compute_shortest_path, hns, hnt, hsp]

/-- Witness for C4: the empty graph gives `none`, and a two-node graph with
    no edges (disconnected snapped endpoints) gives `none`. -/
theorem compute_shortest_path_no_result_witness :
    compute_shortest_path { nodes := [], edges := [] } (0, 0) (1, 1) = none ∧
    compute_shortest_path { nodes := [(0, 0), (1, 1)], edges := [] } (0, 0) (1, 1) =
      none := by
  constructor
  · exact (compute_shortest_path_no_result _ (0, 0) (1, 1)).1 rfl
  · refine (compute_shortest_path_no_result _ (0, 0) (1, 1)).2 (0, 0) (1, 1) ?_ ?_ ?_
    · norm_num [find_nearest_node, sqDist]
    · norm_num [find_nearest_node, sqDist]
    · rintro ⟨p, h1, h2, h3⟩
      cases p with
      | nil => simp at h1
      | cons a q =>
        have ha : a = (0, 0) := by simpa using h1
        subst ha
        cases q with
        | nil => simp at h2
        | cons b q' =>
          rw [List.chain'_cons] at h3
          simpa [edgeMem] using h3.1

/-! ## C10: missing is_blocked column -/

/-- C10: when the road frame has no is_blocked column, compute_safe_route
    returns `None` for every pair of endpoints, every hazard set and every
    buffer distance — the blocked-road filter raises KeyError, absorbed by
    the surrounding catch-all. -/
theorem compute_safe_route_missing_blocked_column {H : Type}
    (buf : H → ℝ → Except GeoErr H)
    (ovRoads : List (ℕ × Road) → List H → Except GeoErr (List ((ℕ × Road) × H)))
    (roadsGdf : RoadsGdf) (startPoint endPoint : Coord)
    (disasterZones : List H) (bufferDistance : ℝ)
    (hcol : roadsGdf.hasBlockedCol = false) :
    (compute_safe_route buf ovRoads roadsGdf startPoint endPoint disasterZones
        bufferDistance).1 = none := by
  simp [compute_safe_route, hcol]

/-- Witness for C10: a single unblocked road connecting the two endpoints,
    but in a frame without an is_blocked column — the route is still None. -/
theorem compute_safe_route_missing_blocked_column_witness :
    (compute_safe_route
        (fun (_ : Unit) (_ : ℝ) => (Except.ok () : Except GeoErr Unit))
        (fun (_ : List (ℕ × Road)) (_ : List Unit) =>
          (Except.ok [] : Except GeoErr (List ((ℕ × Road) × Unit))))
        { rows := [(0, { coords := [(0, 0), (1, 0)], is_blocked := false })]
          hasBlockedCol := false }
        (0, 0) (1, 0) [] 1000).1 = none :=
  compute_safe_route_missing_blocked_column _ _ _ (0, 0) (1, 0) [] 1000 rfl

/-! ## C1: hazard filtering drops rows by overlay position, not identity -/

/-- C1 (bug evaluation): two roads, indexed 0 and 1; only road 1
    geometrically intersects the buffered hazard zone.  The overlay result
    has one row, reindexed to 0, so the filter discards road 0 — the safe
    one — and keeps hazard-intersecting road 1, over which the returned
    route then runs.  The last two conjuncts record which road actually
    intersects the hazard. -/
theorem compute_safe_route_index_bug :
    ((compute_safe_route
        (fun (_ : Unit) (_ : ℝ) => (Except.ok () : Except GeoErr Unit))
        (fun g1 g2 => Except.ok (overlayPairs
          (fun (r : ℕ × Road) (_ : Unit) => decide (r.2.coords = [(5, 0), (6, 0)]))
          g1 g2))
        { rows := [(0, { coords := [(0, 0), (1, 0)], is_blocked := false }),
                   (1, { coords := [(5, 0), (6, 0)], is_blocked := false })]
          hasBlockedCol := true }
        (5, 0) (6, 0) [()] 1000).1.map (fun r => r.path)) = some [(5, 0), (6, 0)] ∧
    (fun (r : ℕ × Road) (_ : Unit) => decide (r.2.coords = [(5, 0), (6, 0)]))
      (1, { coords := [(5, 0), (6, 0)], is_blocked := false }) () = true ∧
    (fun (r : ℕ × Road) (_ : Unit) => decide (r.2.coords = [(5, 0), (6, 0)]))
      (0, { coords := [(0, 0), (1, 0)], is_blocked := false }) () = false := by
  refine ⟨?_, by decide, by decide⟩
  have hbuf : create_buffer (fun (_ : Unit) (_ : ℝ) => (Except.ok () : Except GeoErr Unit))
      [()] (1000 : ℝ) = [()] := rfl
  norm_num [compute_safe_route, hbuf, spatial_intersection, overlayPairs,
    build_road_network, addEdge, addNode, edgeMem,
    consecPairs, find_nearest_node, sqDist, neighborsOf, simplePaths, simplePathsAux,
    selectShortest, compute_shortest_path]

/-! ## C8: diagonal end-to-end scenario -/

lemma c8_route_eval :
    (compute_safe_route
        (fun (_ : Unit) (_ : ℝ) => (Except.ok () : Except GeoErr Unit))
        (fun (_ : List (ℕ × Road)) (_ : List Unit) =>
          (Except.ok [] : Except GeoErr (List ((ℕ × Road) × Unit))))
        { rows := [(0, { coords := [(0, 0), (1 / 100, 1 / 100)], is_blocked := false })]
          hasBlockedCol := true }
        (0, 0) (1 / 100, 1 / 100) [] 1000).1 =
      some
        { path := [(0, 0), (1 / 100, 1 / 100)]
          path_coordinates := [(0, 0), (1 / 100, 1 / 100)]
          total_distance_meters := pyRound2 (pathWeight [(0, 0), (1 / 100, 1 / 100)])
          total_distance_km := pyRound2 (pathWeight [(0, 0), (1 / 100, 1 / 100)] / 1000)
          num_segments := 1
          safety_status := some "safe"
          avoided_disaster_zones := some 0
          safety_score := none } := by
  norm_num [compute_safe_route, build_road_network, addEdge, addNode, edgeMem,
    consecPairs, find_nearest_node, sqDist, neighborsOf, simplePaths, simplePathsAux,
    selectShortest, compute_shortest_path, Prod.mk.injEq, -Prod.mk_zero_zero]

lemma c8_pathWeight :
    pathWeight [(0, 0), (1 / 100, 1 / 100)] = Real.sqrt (1 / 5000 : ℝ) * 111000 := by
  norm_num [pathWeight, consecPairs, edgeWeight, euclidDist, sqDist]

lemma c8_sqrt_lower : (156977.5 : ℝ) ≤ Real.sqrt (1 / 5000 : ℝ) * 11100000 := by
  have ht0 : (0 : ℝ) ≤ Real.sqrt (1 / 5000 : ℝ) := Real.sqrt_nonneg _
  have ht2 : Real.sqrt (1 / 5000 : ℝ) ^ 2 = 1 / 5000 := Real.sq_sqrt (by norm_num)
  nlinarith [ht0, ht2]

lemma c8_sqrt_upper : Real.sqrt (1 / 5000 : ℝ) * 11100000 < (156978.5 : ℝ) := by
  have ht0 : (0 : ℝ) ≤ Real.sqrt (1 / 5000 : ℝ) := Real.sqrt_nonneg _
  have ht2 : Real.sqrt (1 / 5000 : ℝ) ^ 2 = 1 / 5000 := Real.sq_sqrt (by norm_num)
  nlinarith [ht0, ht2]

lemma c8_round :
    pyRound2 (Real.sqrt (1 / 5000 : ℝ) * 111000) = 156978 / 100 := by
  unfold pyRound2
  have h : round (Real.sqrt (1 / 5000 : ℝ) * 111000 * 100) = (156978 : ℤ) := by
    apply round_eq_of
    · push_cast
      have := c8_sqrt_lower
      nlinarith [this]
    · push_cast
      have := c8_sqrt_upper
      nlinarith [this]
  rw [h]
  norm_num

lemma c8_sqrt2 : Real.sqrt (2 : ℝ) = 100 * Real.sqrt (1 / 5000 : ℝ) := by
  have h : (100 * Real.sqrt (1 / 5000 : ℝ)) ^ 2 = 2 := by
    rw [mul_pow, Real.sq_sqrt (by norm_num : (0 : ℝ) ≤ 1 / 5000)]
    norm_num
  calc Real.sqrt 2 = Real.sqrt ((100 * Real.sqrt (1 / 5000 : ℝ)) ^ 2) := by rw [h]
  _ = 100 * Real.sqrt (1 / 5000 : ℝ) := Real.sqrt_sq (by positivity)

/-- C8 amended: for the two points 0.01° apart joined by one straight road
    (with an is_blocked = false column present) and no hazards,
    compute_safe_route returns the route along that road with
    total_distance_meters = 1569.78 ≈ 0.01·111000·√2 and safety_status
    "safe" — but the returned dict has NO safety_score key at all
    (compute_safe_route never attaches one); the safety score the code
    would assign this route, calculate_route_safety_score with no hazard
    zones, is exactly 100. -/
theorem compute_safe_route_diagonal_scenario :
    ((compute_safe_route
        (fun (_ : Unit) (_ : ℝ) => (Except.ok () : Except GeoErr Unit))
        (fun (_ : List (ℕ × Road)) (_ : List Unit) =>
          (Except.ok [] : Except GeoErr (List ((ℕ × Road) × Unit))))
        { rows := [(0, { coords := [(0, 0), (1 / 100, 1 / 100)], is_blocked := false })]
          hasBlockedCol := true }
        (0, 0) (1 / 100, 1 / 100) [] 1000).1.map
      (fun r => (r.path, r.total_distance_meters, r.safety_status, r.safety_score))) =
      some ([(0, 0), (1 / 100, 1 / 100)], (156978 / 100 : ℝ), some "safe", none) ∧
    |(156978 / 100 : ℝ) - 1 / 100 * 111000 * Real.sqrt 2| < 1 / 100 ∧
    (∀ (R A : Type) (dist : R → A → Except GeoErr ℝ) (g : R),
      calculate_route_safety_score dist g ([] : List A) = 100) := by
  refine ⟨?_, ?_, ?_⟩
  · rw [c8_route_eval]
    simp only [Option.map_some']
    rw [c8_pathWeight, c8_round]
  · rw [c8_sqrt2, abs_lt]
    have h1 := c8_sqrt_lower
    have h2 := c8_sqrt_upper
    constructor <;> nlinarith [h1, h2]
  · intro R A dist g
    simp [calculate_route_safety_score]

/-- C8 counterexample: the route returned in the diagonal scenario carries
    no safety_score key, so the claim that it equals 100 fails. -/
theorem compute_safe_route_no_safety_score :
    ¬ ∃ r, (compute_safe_route
        (fun (_ : Unit) (_ : ℝ) => (Except.ok () : Except GeoErr Unit))
        (fun (_ : List (ℕ × Road)) (_ : List Unit) =>
          (Except.ok [] : Except GeoErr (List ((ℕ × Road) × Unit))))
        { rows := [(0, { coords := [(0, 0), (1 / 100, 1 / 100)], is_blocked := false })]
          hasBlockedCol := true }
        (0, 0) (1 / 100, 1 / 100) [] 1000).1 = some r ∧
      r.safety_score = some 100 := by
  rintro ⟨r, hr, hs⟩
  rw [c8_route_eval] at hr
  injection hr with h
  subst h
  simp at hs

end DisasterGIS
